import Mathlib

attribute [local semireducible] Rat.mul Rat.add Rat.sub Rat.inv Rat.ofScientific

/-!
# Verification of the cloud-cost-optimiser scan-and-classify engine

Shallow embedding of the repository's scanner pipeline:

* `backend/scanner/ec2_scanner.py`    (`EC2Scanner`)
* `backend/scanner/ebs_scanner.py`    (`EBSScanner`)
* `backend/scanner/master_scanner.py` (`MasterScanner`)
* `backend/api/routes/findings.py`    (`mark_as_implemented`)

Monetary values are modelled as rationals; Python's `round(x, 2)`
(round-half-to-even) is modelled by `round2`.  Python exceptions
(`KeyError`, `NameError`, `TypeError`, FastAPI's `HTTPException`) are
modelled by the `PyErr` error type; fallible code returns `Except PyErr`.
-/

namespace CostOptimiser

/-- Python exception values that the embedded code can raise. -/
inductive PyErr where
  /-- `KeyError(key)`: dictionary lookup on a missing key. -/
  | keyError (key : String)
  /-- `NameError`: evaluating a name that is bound nowhere in scope. -/
  | nameError (n : String)
  /-- `TypeError`: e.g. comparing `None` with an `int`. -/
  | typeError (msg : String)
  /-- FastAPI `HTTPException(status_code, detail)`. -/
  | httpError (status : Nat) (detail : String)
  deriving Repr, DecidableEq

deriving instance DecidableEq for Except

/-- The floor of a rational, written with `Int.fdiv` (floor division of
the numerator by the denominator) so that it evaluates by kernel
reduction. -/
def ratFloor (x : ℚ) : ℤ := x.num.fdiv x.den

/-- Round-half-to-even on rationals (the semantics of Python's `round`
applied to an exactly-representable value). -/
def roundHalfEven (x : ℚ) : ℤ :=
  let f : ℤ := ratFloor x
  let r : ℚ := x - f
  if r < 1/2 then f
  else if 1/2 < r then f + 1
  else if f % 2 = 0 then f else f + 1

/-- Python `round(x, 2)`: round to 2 decimal places, half to even. -/
def round2 (x : ℚ) : ℚ := (roundHalfEven (x * 100) : ℚ) / 100

/-- Python name resolution for a fixed scope: an unbound name raises
`NameError`. -/
def pyResolve (scope : List String) (n : String) : Except PyErr Unit :=
  if scope.contains n then .ok () else .error (.nameError n)

/-- Python `pat in s` for strings, written via `splitOn`:
a (non-empty) pattern occurs in `s` iff splitting on it yields
more than one piece. -/
def strContains (s pat : String) : Bool :=
  (s.splitOn pat).length != 1

/-! ## EC2 scanner (`backend/scanner/ec2_scanner.py`) -/

namespace EC2

/-- `EC2Scanner._load_pricing`: hourly On-Demand rate by instance type. -/
def pricing : List (String × ℚ) :=
  [ ("t3.nano", 0.0059), ("t3.micro", 0.0118), ("t3.small", 0.0236),
    ("t3.medium", 0.0472), ("t3.large", 0.0944), ("t3.xlarge", 0.1888),
    ("t3.2xlarge", 0.3776),
    ("t2.micro", 0.0132), ("t2.small", 0.0264), ("t2.medium", 0.0528),
    ("t2.large", 0.1056),
    ("m5.large", 0.111), ("m5.xlarge", 0.222), ("m5.2xlarge", 0.444),
    ("m5.4xlarge", 0.888),
    ("c5.large", 0.101), ("c5.xlarge", 0.202), ("c5.2xlarge", 0.404),
    ("r5.large", 0.148), ("r5.xlarge", 0.296), ("r5.2xlarge", 0.592) ]

/-- `self.pricing.get(instance_type, 0.10)`: table lookup with the
conservative default rate. -/
def priceOf (instanceType : String) : ℚ :=
  (pricing.lookup instanceType).getD 0.10

/-- `EC2Scanner.calculate_monthly_cost`: hourly rate × 730, rounded. -/
def calculate_monthly_cost (instanceType : String) : ℚ :=
  round2 (priceOf instanceType * 730)

/-- The size ladder of `EC2Scanner._get_smaller_instance_type`. -/
def size_order : List String :=
  ["nano", "micro", "small", "medium", "large", "xlarge", "2xlarge",
   "4xlarge", "8xlarge"]

/-- `EC2Scanner._get_smaller_instance_type`: next smaller size in the
same family, `none` if the type does not parse, the size is unknown
(Python's `ValueError` from `.index`), or it is already the smallest. -/
def get_smaller_instance_type (instanceType : String) : Option String :=
  match instanceType.splitOn "." with
  | [family, size] =>
    match size_order.findIdx? (· == size) with
    | some i =>
      if i > 0 then some (family ++ "." ++ size_order.getD (i - 1) "")
      else none
    | none => none
  | _ => none

/-- One savings scenario (`monthly_savings`, `annual_savings`), both
rounded to 2 decimals as in the source. -/
structure Scenario where
  monthly_savings : ℚ
  annual_savings : ℚ
  deriving Repr, DecidableEq

/-- The value of `calculate_savings_scenarios`: current monthly cost
plus the three scenarios (downsize also carries `new_type`). -/
structure Scenarios where
  current_monthly_cost : ℚ
  schedule : Scenario
  downsize : Scenario
  downsize_new_type : String
  terminate : Scenario
  deriving Repr, DecidableEq

/-- `EC2Scanner.calculate_savings_scenarios`.  The `avg_cpu` argument is
taken (as in the source) but not used. -/
def calculate_savings_scenarios (instanceType : String) (_avgCpu : ℚ) :
    Scenarios :=
  let current_cost := calculate_monthly_cost instanceType
  let business_hours_monthly := 50 * 4.33 * priceOf instanceType
  let schedule_savings := current_cost - business_hours_monthly
  let (downsize_savings, smaller_type) :=
    match get_smaller_instance_type instanceType with
    | some t => (current_cost - calculate_monthly_cost t, t)
    | none => (0, instanceType)
  let terminate_savings := current_cost
  { current_monthly_cost := current_cost
    schedule := { monthly_savings := round2 schedule_savings
                  annual_savings := round2 (schedule_savings * 12) }
    downsize := { monthly_savings := round2 downsize_savings
                  annual_savings := round2 (downsize_savings * 12) }
    downsize_new_type := smaller_type
    terminate := { monthly_savings := round2 terminate_savings
                   annual_savings := round2 (terminate_savings * 12) } }

/-- The dictionary lookup `savings["scenarios"][action]`: only the three
computed scenario names are keys; any other action raises `KeyError`. -/
def scenarioLookup (sc : Scenarios) (action : String) : Option Scenario :=
  if action = "schedule" then some sc.schedule
  else if action = "downsize" then some sc.downsize
  else if action = "terminate" then some sc.terminate
  else none

/-- A CloudWatch `get_metric_statistics` outcome for one instance:
either the datapoint list `(Average, Maximum)` or a fetch error. -/
inductive CwResp where
  | ok (datapoints : List (ℚ × ℚ))
  | err
  deriving Repr, DecidableEq

/-- Maximum of a datapoint list (Python `max`; the empty case is
unreachable behind the emptiness guard of `get_cpu_metrics`). -/
def listMax : List ℚ → ℚ
  | [] => 0
  | x :: xs => xs.foldl max x

/-- Minimum of a datapoint list (Python `min`). -/
def listMin : List ℚ → ℚ
  | [] => 0
  | x :: xs => xs.foldl min x

/-- The dictionary returned by `EC2Scanner.get_cpu_metrics`.  The `min`
key is only present in the `ok` case, hence `Option`. -/
structure CpuMetrics where
  avg : ℚ
  max : ℚ
  min : Option ℚ
  datapoints : ℕ
  status : String
  deriving Repr, DecidableEq

/-- `EC2Scanner.get_cpu_metrics`: a fetch error or an empty datapoint
list is substituted by the 0% sentinel with status `error` / `no_data`;
otherwise mean/max/min of the datapoints, rounded. -/
def get_cpu_metrics (resp : CwResp) : CpuMetrics :=
  match resp with
  | .err => { avg := 0, max := 0, min := none, datapoints := 0, status := "error" }
  | .ok [] => { avg := 0, max := 0, min := none, datapoints := 0, status := "no_data" }
  | .ok dps =>
    let averages := dps.map Prod.fst
    let maximums := dps.map Prod.snd
    { avg := round2 (averages.sum / averages.length)
      max := round2 (listMax maximums)
      min := some (round2 (listMin averages))
      datapoints := dps.length
      status := "ok" }

/-- A raw `describe_instances` entry (the fields the scanner reads). -/
structure RawInst where
  instanceId : String
  instanceType : String
  state : String
  tags : List (String × String)
  deriving Repr, DecidableEq

/-- `EC2Scanner._extract_name_tag`: first `Name` tag, else a fallback. -/
def extract_name_tag (inst : RawInst) : String :=
  match inst.tags.find? (fun t => t.1 == "Name") with
  | some t => t.2
  | none => "Unnamed-" ++ inst.instanceId

/-- The per-instance dictionary built by `get_all_instances`. -/
structure Inst where
  id : String
  name : String
  itype : String
  deriving Repr, DecidableEq

/-- `EC2Scanner.get_all_instances`: keep only `running` instances
(stopped instances already save money). -/
def get_all_instances (raw : List RawInst) : List Inst :=
  raw.filterMap fun i =>
    if i.state = "running" then
      some { id := i.instanceId, name := extract_name_tag i,
             itype := i.instanceType }
    else none

/-- The severity / recommended action / reason decision of
`generate_recommendation` (source lines 341–362): ordered thresholds on
`avg_cpu` alone, first match wins.  (The textual rendering of the
number inside the reason string uses Lean's `ℚ` printer rather than
Python float formatting; no claim depends on it.) -/
def recDecision (avg : ℚ) : String × String × String :=
  if avg < 2 then
    ("critical", "terminate",
     "Extremely low CPU usage (" ++ toString avg ++ "%). Likely abandoned.")
  else if avg < 5 then
    ("high", "schedule",
     "Very low CPU usage (" ++ toString avg ++ "%). Consider scheduling or downsizing.")
  else if avg < 10 then
    ("medium", "downsize",
     "Low CPU usage (" ++ toString avg ++ "%). Likely oversized.")
  else if avg < 20 then
    ("low", "schedule",
     "Moderate CPU usage (" ++ toString avg ++ "%). Could benefit from scheduling.")
  else
    ("info", "none", "CPU usage acceptable (" ++ toString avg ++ "%).")

/-- The `recommendation` sub-dictionary of a finding. -/
structure RecommendationCore where
  severity : String
  action : String
  reason : String
  primary_savings : ℚ
  annual_impact : ℚ
  deriving Repr, DecidableEq

/-- The finding dictionary returned by `generate_recommendation`
(`metrics` sub-dict flattened into the `*_cpu` fields; `all_scenarios`
is the `scenarios` part of `costs` and is not duplicated). -/
structure Finding where
  instance_id : String
  instance_name : String
  instance_type : String
  region : String
  avg_cpu : ℚ
  max_cpu : ℚ
  min_cpu : ℚ
  datapoints : ℕ
  costs : Scenarios
  recommendation : RecommendationCore
  deriving Repr, DecidableEq

/-- `EC2Scanner.generate_recommendation`: one finding per instance.
The lookup `savings["scenarios"][recommended_action]` raises `KeyError`
when the recommended action is not one of the three computed scenarios
(which happens exactly for `"none"`, i.e. `avg_cpu ≥ 20`). -/
def generate_recommendation (region : String) (inst : Inst)
    (cm : CpuMetrics) : Except PyErr Finding :=
  let avg := cm.avg
  let savings := calculate_savings_scenarios inst.itype avg
  let (severity, action, reason) := recDecision avg
  match scenarioLookup savings action with
  | some s =>
    .ok { instance_id := inst.id
          instance_name := inst.name
          instance_type := inst.itype
          region := region
          avg_cpu := avg
          max_cpu := cm.max
          min_cpu := cm.min.getD 0
          datapoints := cm.datapoints
          costs := savings
          recommendation :=
            { severity := severity, action := action, reason := reason
              primary_savings := s.monthly_savings
              annual_impact := s.annual_savings } }
  | none => .error (.keyError action)

/-- Stable insertion step of
`recommendations.sort(key=..., reverse=True)`. -/
def insertByDesc (x : Finding) : List Finding → List Finding
  | [] => [x]
  | y :: ys =>
    if x.recommendation.primary_savings < y.recommendation.primary_savings
    then y :: insertByDesc x ys
    else x :: y :: ys

/-- `recommendations.sort(key=lambda x: primary_savings, reverse=True)`. -/
def sortBySavingsDesc (l : List Finding) : List Finding :=
  l.foldr insertByDesc []

/-- Count of findings with the given severity (the generator
expressions in the `summary` dict of `EC2Scanner.scan`). -/
def countSev (l : List Finding) (s : String) : ℕ :=
  (l.filter fun r => r.recommendation.severity = s).length

/-- The non-empty result dictionary of `EC2Scanner.scan`. -/
structure Ec2Full where
  scan_date : String
  region : String
  instances_scanned : ℕ
  recommendations : List Finding
  critical : ℕ
  high : ℕ
  medium : ℕ
  low : ℕ
  monthly : ℚ
  annual : ℚ
  deriving Repr, DecidableEq

/-- The result of `EC2Scanner.scan`: the early-return dictionary for an
empty inventory (`status`, `instances_scanned`, `recommendations`,
`total_potential_savings` — a different shape!), or the full report. -/
inductive Ec2Result where
  | empty
  | full (f : Ec2Full)
  deriving Repr, DecidableEq

/-- The analysis loop of `EC2Scanner.scan` (step 2): fetch CloudWatch
metrics for each instance and classify it; an exception from a single
classification propagates (the Python loop does not catch it). -/
def classifyAll (region : String) (metrics : String → CwResp) :
    List Inst → Except PyErr (List Finding)
  | [] => .ok []
  | i :: rest => do
    let f ← generate_recommendation region i (get_cpu_metrics (metrics i.id))
    let others ← classifyAll region metrics rest
    return f :: others

/-- `EC2Scanner.scan`: classify every running instance; any exception
from a single classification aborts the scan (the Python loop does not
catch).  Totals sum primary savings of severities
`critical`, `high`, `medium` only. -/
def scan (region scanDate : String) (raw : List RawInst)
    (metrics : String → CwResp) : Except PyErr Ec2Result := do
  let instances := get_all_instances raw
  if instances.isEmpty then
    return .empty
  else
    let recs ← classifyAll region metrics instances
    let total_monthly :=
      ((recs.filter fun r =>
          ["critical", "high", "medium"].contains r.recommendation.severity).map
        fun r => r.recommendation.primary_savings).sum
    let total_annual := total_monthly * 12
    let sorted := sortBySavingsDesc recs
    return .full
      { scan_date := scanDate
        region := region
        instances_scanned := instances.length
        recommendations := sorted
        critical := countSev sorted "critical"
        high := countSev sorted "high"
        medium := countSev sorted "medium"
        low := countSev sorted "low"
        monthly := round2 total_monthly
        annual := round2 total_annual }

end EC2

/-! ## EBS scanner (`backend/scanner/ebs_scanner.py`) -/

namespace EBS

/-- `EBSScanner.volume_pricing`: per-GB monthly rate by volume type. -/
def volume_pricing : List (String × ℚ) :=
  [ ("gp3", 0.096), ("gp2", 0.12), ("io1", 0.14), ("io2", 0.14),
    ("st1", 0.054), ("sc1", 0.018), ("standard", 0.06) ]

/-- `EBSScanner.snapshot_pricing`. -/
def snapshot_pricing : ℚ := 0.053

/-- `self.volume_pricing.get(volume_type, 0.10)`. -/
def volumePriceOf (volumeType : String) : ℚ :=
  (volume_pricing.lookup volumeType).getD 0.10

/-- `EBSScanner._calculate_volume_cost`: size × per-GB rate, rounded. -/
def calculate_volume_cost (sizeGb : ℕ) (volumeType : String) : ℚ :=
  round2 (sizeGb * volumePriceOf volumeType)

/-- A raw `describe_volumes` entry (the fields the classifiers read;
the creation timestamp is represented by its age in days,
`(datetime.now - created).days`, since only that difference is used;
the `encrypted` / `throughput` fields are carried by the source dict
but never read). -/
structure RawVolume where
  id : String
  size : ℕ
  vtype : String
  state : String
  ageDays : ℕ
  createdDate : String
  attachments : List String
  tags : List (String × String)
  iops : Option ℕ
  deriving Repr, DecidableEq

/-- `EBSScanner._extract_name_tag`. -/
def extract_name_tag (tags : List (String × String)) : String :=
  match tags.find? (fun t => t.1 == "Name") with
  | some t => t.2
  | none => "Unnamed"

/-- `EBSScanner._get_unattached_recommendation`. -/
def get_unattached_recommendation (ageDays : ℕ) : String :=
  if ageDays > 90 then
    "CRITICAL: Unattached for " ++ toString ageDays ++ " days. " ++
      "Create snapshot for safety, then delete volume."
  else if ageDays > 30 then
    "HIGH: Unattached for " ++ toString ageDays ++ " days. Verify not needed, then delete."
  else if ageDays > 7 then
    "MEDIUM: Unattached for " ++ toString ageDays ++ " days. " ++
      "Monitor for another week, then consider deletion."
  else
    "LOW: Recently unattached (" ++ toString ageDays ++ " days). Continue monitoring."

/-- An unattached-volume finding (the dictionary built by
`find_unattached_volumes`; the `created_date` strftime string is not
modelled since the timestamp is represented by its age). -/
structure UnattachedItem where
  volume_id : String
  size_gb : ℕ
  vtype : String
  created_date : String
  age_days : ℕ
  monthly_cost : ℚ
  annual_cost : ℚ
  severity : String
  recommendation : String
  name : String
  deriving Repr, DecidableEq

/-- The item built for one `available` volume inside
`find_unattached_volumes` (severity by age, full monthly cost). -/
def unattachedItem (v : RawVolume) : UnattachedItem :=
  let monthly_cost := calculate_volume_cost v.size v.vtype
  { volume_id := v.id
    size_gb := v.size
    vtype := v.vtype
    created_date := v.createdDate
    age_days := v.ageDays
    monthly_cost := monthly_cost
    annual_cost := round2 (monthly_cost * 12)
    severity :=
      if v.ageDays > 90 then "critical"
      else if v.ageDays > 30 then "high"
      else if v.ageDays > 7 then "medium"
      else "low"
    recommendation := get_unattached_recommendation v.ageDays
    name := extract_name_tag v.tags }

/-- `EBSScanner.find_unattached_volumes`: one finding per volume in
state `available`. -/
def find_unattached_volumes (vols : List RawVolume) : List UnattachedItem :=
  vols.filterMap fun v =>
    if v.state = "available" then some (unattachedItem v) else none

/-- The dictionary returned by `EBSScanner._get_volume_io_stats`. -/
structure IoStats where
  total_read_ops : ℕ
  total_write_ops : ℕ
  avg_read_ops_per_day : ℕ
  avg_write_ops_per_day : ℕ
  deriving Repr, DecidableEq

/-- `EBSScanner._get_volume_io_stats`: summed CloudWatch read/write ops
(`io volumeId = none` models the `except` branch, substituted by
zeros); per-day averages use `int()` truncation. -/
def get_volume_io_stats (io : String → Option (ℕ × ℕ))
    (volumeId : String) (days : ℕ) : IoStats :=
  match io volumeId with
  | none =>
    { total_read_ops := 0, total_write_ops := 0,
      avg_read_ops_per_day := 0, avg_write_ops_per_day := 0 }
  | some (r, w) =>
    { total_read_ops := r
      total_write_ops := w
      avg_read_ops_per_day := if days > 0 then r / days else 0
      avg_write_ops_per_day := if days > 0 then w / days else 0 }

/-- A low-activity attached-volume finding. -/
structure LowActivityItem where
  volume_id : String
  size_gb : ℕ
  vtype : String
  instance_id : Option String
  io_stats : IoStats
  monthly_cost : ℚ
  severity : String
  recommendation : String
  name : String
  deriving Repr, DecidableEq

/-- `EBSScanner.find_low_activity_volumes`: attached (`in-use`) volumes
whose total 7-day I/O is below 100 operations. -/
def find_low_activity_volumes (io : String → Option (ℕ × ℕ))
    (days : ℕ) (vols : List RawVolume) : List LowActivityItem :=
  let attached := vols.filter fun v => v.state = "in-use"
  attached.filterMap fun v =>
    let stats := get_volume_io_stats io v.id days
    let total := stats.total_read_ops + stats.total_write_ops
    if total < 100 then
      some { volume_id := v.id
             size_gb := v.size
             vtype := v.vtype
             instance_id := v.attachments.head?
             io_stats := stats
             monthly_cost := calculate_volume_cost v.size v.vtype
             severity := "medium"
             recommendation := "Volume has no I/O activity. Verify if still needed."
             name := extract_name_tag v.tags }
    else none

/-- A raw `describe_snapshots` entry (creation time represented by its
age in days, as for volumes). -/
structure RawSnapshot where
  id : String
  volumeId : Option String
  size : ℕ
  ageDays : ℕ
  startTime : String
  description : Option String
  tags : List (String × String)
  deriving Repr, DecidableEq

/-- `EBSScanner._get_snapshot_recommendation`. -/
def get_snapshot_recommendation (ageDays : ℕ) (isAmi : Bool) : String :=
  if isAmi then
    "Part of an AMI. Age: " ++ toString ageDays ++ " days. " ++
      "Verify AMI is still needed before deleting."
  else
    "Standalone snapshot, " ++ toString ageDays ++ " days old. " ++
      "If not required for compliance/recovery, consider deleting."

/-- An old-snapshot finding. -/
structure SnapshotItem where
  snapshot_id : String
  volume_id : String
  size_gb : ℕ
  created_date : String
  age_days : ℕ
  monthly_cost : ℚ
  annual_cost : ℚ
  description : String
  is_ami_snapshot : Bool
  severity : String
  recommendation : String
  tags : List (String × String)
  deriving Repr, DecidableEq

/-- `EBSScanner.find_old_snapshots`: snapshots older than the
threshold; each finding carries its full monthly cost; AMI-backing
snapshots (description contains "ami" or "created by createimage",
lower-cased) get severity `low`, the rest `medium`. -/
def find_old_snapshots (ageThresholdDays : ℕ) (snaps : List RawSnapshot) :
    List SnapshotItem :=
  snaps.filterMap fun s =>
    if s.ageDays > ageThresholdDays then
      let monthly_cost : ℚ := s.size * snapshot_pricing
      let description := (s.description.getD "").toLower
      let is_ami_snapshot :=
        strContains description "ami" ||
          strContains description "created by createimage"
      some { snapshot_id := s.id
             volume_id := s.volumeId.getD "N/A"
             size_gb := s.size
             created_date := s.startTime
             age_days := s.ageDays
             monthly_cost := round2 monthly_cost
             annual_cost := round2 (monthly_cost * 12)
             description := s.description.getD "No description"
             is_ami_snapshot := is_ami_snapshot
             severity := if is_ami_snapshot then "low" else "medium"
             recommendation :=
               get_snapshot_recommendation s.ageDays is_ami_snapshot
             tags := s.tags }
    else none

/-- A volume-type-optimization finding. -/
structure OptItem where
  volume_id : String
  current_type : String
  recommended_type : String
  size_gb : ℕ
  current_monthly_cost : ℚ
  new_monthly_cost : ℚ
  monthly_savings : ℚ
  annual_savings : ℚ
  reason : String
  risk : String
  severity : String
  deriving Repr, DecidableEq

/-- The gp2 → gp3 optimization dictionary of
`find_volume_type_optimizations`. -/
def gp2OptItem (v : RawVolume) : OptItem :=
  let current_cost := calculate_volume_cost v.size v.vtype
  let new_cost := calculate_volume_cost v.size "gp3"
  let savings := current_cost - new_cost
  { volume_id := v.id
    current_type := v.vtype
    recommended_type := "gp3"
    size_gb := v.size
    current_monthly_cost := current_cost
    new_monthly_cost := new_cost
    monthly_savings := round2 savings
    annual_savings := round2 (savings * 12)
    reason := "gp3 is newer, faster, and cheaper than gp2"
    risk := "Low - gp3 performs better than gp2"
    severity := "medium" }

/-- The io1/io2 → gp3 optimization dictionary of
`find_volume_type_optimizations`. -/
def ioOptItem (v : RawVolume) (provisioned_iops : ℕ) : OptItem :=
  let current_cost := calculate_volume_cost v.size v.vtype
  let new_cost := calculate_volume_cost v.size "gp3"
  let savings := current_cost - new_cost
  { volume_id := v.id
    current_type := v.vtype
    recommended_type := "gp3"
    size_gb := v.size
    current_monthly_cost := current_cost
    new_monthly_cost := new_cost
    monthly_savings := round2 savings
    annual_savings := round2 (savings * 12)
    reason := "Low IOPS (" ++ toString provisioned_iops ++
      "). gp3 can handle this workload."
    risk := "Medium - Verify performance requirements"
    severity := "high" }

/-- The per-volume step of `find_volume_type_optimizations`:
gp2 → gp3 always (severity `medium`); io1/io2 → gp3 when provisioned
IOPS < 10000 (severity `high`).  When an io1/io2 volume has no IOPS
value (`volume.get("Iops")` was `None`), the comparison
`provisioned_iops < 10000` raises `TypeError`. -/
def optimizationStep (v : RawVolume) : Except PyErr (Option OptItem) :=
  if v.vtype = "gp2" then
    .ok (some (gp2OptItem v))
  else if v.vtype = "io1" ∨ v.vtype = "io2" then
    match v.iops with
    | none =>
      .error (.typeError
        "'<' not supported between instances of 'NoneType' and 'int'")
    | some provisioned_iops =>
      if provisioned_iops < 10000 then .ok (some (ioOptItem v provisioned_iops))
      else .ok none
  else .ok none

/-- `EBSScanner.find_volume_type_optimizations`: the loop over all
volumes, appending one optimization per matching volume; a `TypeError`
raised for one volume propagates. -/
def find_volume_type_optimizations : List RawVolume →
    Except PyErr (List OptItem)
  | [] => .ok []
  | v :: rest => do
    let r ← optimizationStep v
    let others ← find_volume_type_optimizations rest
    match r with
    | some item => return item :: others
    | none => return others

/-- Distinct keys in first-occurrence order (the key set of the
`defaultdict` grouping in `analyze_snapshot_lifecycle`). -/
def distinctKeys (l : List String) : List String :=
  l.foldl (fun acc x => if acc.contains x then acc else acc ++ [x]) []

/-- The age bucket of `_calculate_age_distribution`. -/
def ageBucket (ageDays : ℕ) : String :=
  if ageDays ≤ 30 then "0-30 days"
  else if ageDays ≤ 90 then "31-90 days"
  else if ageDays ≤ 180 then "91-180 days"
  else if ageDays ≤ 365 then "181-365 days"
  else if ageDays ≤ 730 then "1-2 years"
  else "2+ years"

/-- `EBSScanner._calculate_age_distribution`. -/
def calculate_age_distribution (snaps : List RawSnapshot) :
    List (String × ℕ) :=
  [ "0-30 days", "31-90 days", "91-180 days", "181-365 days",
    "1-2 years", "2+ years" ].map fun b =>
    (b, (snaps.filter fun s => ageBucket s.ageDays = b).length)

/-- A lifecycle recommendation of `analyze_snapshot_lifecycle`. -/
structure LifecycleRec where
  volume_id : String
  snapshot_count : ℕ
  recommendation : String
  severity : String
  deriving Repr, DecidableEq

/-- The dictionary returned by `EBSScanner.analyze_snapshot_lifecycle`. -/
structure SnapAnalysis where
  total_snapshots : ℕ
  total_size_gb : ℕ
  total_monthly_cost : ℚ
  volumes_with_snapshots : ℕ
  avg_snapshots_per_volume : ℚ
  age_distribution : List (String × ℕ)
  recommendations : List LifecycleRec
  deriving Repr, DecidableEq

/-- `EBSScanner.analyze_snapshot_lifecycle`. -/
def analyze_snapshot_lifecycle (snaps : List RawSnapshot) : SnapAnalysis :=
  let keys := snaps.map fun s => s.volumeId.getD "unknown"
  let volumes := distinctKeys keys
  { total_snapshots := snaps.length
    total_size_gb := (snaps.map fun s => s.size).sum
    total_monthly_cost := ((snaps.map fun s => (s.size : ℚ) * snapshot_pricing)).sum
    volumes_with_snapshots := volumes.length
    avg_snapshots_per_volume :=
      if volumes.isEmpty then 0 else (snaps.length : ℚ) / volumes.length
    age_distribution := calculate_age_distribution snaps
    recommendations :=
      volumes.filterMap fun vid =>
        let count := (keys.filter fun k => k = vid).length
        if count > 30 then
          some { volume_id := vid
                 snapshot_count := count
                 recommendation := "Volume has " ++ toString count ++
                   " snapshots. Implement lifecycle policy."
                 severity := "medium" }
        else none }

/-- The result dictionary of `EBSScanner.scan` (`status` is the
constant `"success"`; the per-stream `count` keys equal the lengths of
the item lists and are produced by the JSON view). -/
structure EbsResult where
  scan_date : String
  region : String
  unattached : List UnattachedItem
  unattached_total_monthly_cost : ℚ
  old_snapshots : List SnapshotItem
  old_snapshots_total_monthly_cost : ℚ
  volume_optimizations : List OptItem
  volume_optimizations_potential_monthly_savings : ℚ
  low_activity : List LowActivityItem
  low_activity_potential_monthly_cost : ℚ
  snapshot_analysis : SnapAnalysis
  total_findings : ℕ
  critical_severity : ℕ
  high_severity : ℕ
  medium_severity : ℕ
  monthly : ℚ
  annual : ℚ
  deriving Repr, DecidableEq

/-- `EBSScanner.scan`: run the four finders, roll up
`unattached_cost + optimization_savings + snapshot_cost * 0.5`. -/
def scan (region scanDate : String) (vols : List RawVolume)
    (snaps : List RawSnapshot) (io : String → Option (ℕ × ℕ)) :
    Except PyErr EbsResult := do
  let unattached := find_unattached_volumes vols
  let unattached_cost := (unattached.map fun v => v.monthly_cost).sum
  let old_snapshots := find_old_snapshots 180 snaps
  let snapshot_cost := (old_snapshots.map fun s => s.monthly_cost).sum
  let optimizations ← find_volume_type_optimizations vols
  let optimization_savings := (optimizations.map fun o => o.monthly_savings).sum
  let low_activity := find_low_activity_volumes io 7 vols
  let low_activity_cost := (low_activity.map fun v => v.monthly_cost).sum
  let snapshot_analysis := analyze_snapshot_lifecycle snaps
  let total_monthly_savings :=
    unattached_cost + optimization_savings + snapshot_cost * 0.5
  let total_annual_savings := total_monthly_savings * 12
  return { scan_date := scanDate
           region := region
           unattached := unattached
           unattached_total_monthly_cost := round2 unattached_cost
           old_snapshots := old_snapshots
           old_snapshots_total_monthly_cost := round2 snapshot_cost
           volume_optimizations := optimizations
           volume_optimizations_potential_monthly_savings :=
             round2 optimization_savings
           low_activity := low_activity
           low_activity_potential_monthly_cost := round2 low_activity_cost
           snapshot_analysis := snapshot_analysis
           total_findings :=
             unattached.length + old_snapshots.length + optimizations.length
           critical_severity :=
             (unattached.filter fun v => v.severity = "critical").length
           high_severity :=
             (unattached.filter fun v => v.severity = "high").length
           medium_severity :=
             (unattached.filter fun v => v.severity = "medium").length
               + optimizations.length
           monthly := round2 total_monthly_savings
           annual := round2 total_annual_savings }

end EBS

/-! ## Master scanner (`backend/scanner/master_scanner.py`) -/

namespace Master

/-- The names bound in the scope of `MasterScanner.__init__`
(module imports, module-level definitions, `self` and the `region`
parameter).  `profile_name` is not among them. -/
def initScope : List String :=
  [ "json", "os", "random", "time", "datetime", "timedelta", "Dict",
    "EBSFinding", "EC2Finding", "ScanRun", "SessionLocal", "text",
    "EBSScanner", "EC2Scanner", "MasterScanner", "self", "region" ]

/-- The state a constructed `MasterScanner` would hold. -/
structure ScannerState where
  region : String
  is_demo_mode : Bool
  deriving Repr, DecidableEq

/-- `MasterScanner.__init__`: reads the demo switch; when demo mode is
off it evaluates `EC2Scanner(region, profile_name)`, whose argument
`profile_name` is resolved in the enclosing scope before the scanners
can be constructed. -/
def scannerInit (demoMode : Bool) (region : String) :
    Except PyErr ScannerState :=
  if demoMode then .ok { region := region, is_demo_mode := true }
  else do
    let _ ← pyResolve initScope "profile_name"
    .ok { region := region, is_demo_mode := false }

/-- The `executive_summary` dictionary. -/
structure Executive where
  total_monthly_savings : ℚ
  total_annual_savings : ℚ
  total_recommendations : ℕ
  critical_items : ℕ
  high_priority_items : ℕ
  deriving Repr, DecidableEq

/-- The real-scan report of `MasterScanner.scan` (the `scan_metadata`
sub-dictionary flattened into the first three fields;
`scanners_run` is the constant `["EC2", "EBS"]`). -/
structure Report where
  scan_date : String
  region : String
  scan_duration_seconds : ℕ
  ec2_findings : EC2.Ec2Result
  ebs_findings : EBS.EbsResult
  executive_summary : Executive
  deriving Repr, DecidableEq

/-- `ec2_results.get("potential_savings", {}).get("monthly", 0)`:
the empty-inventory EC2 result has no `potential_savings` key. -/
def ec2MonthlyOf : EC2.Ec2Result → ℚ
  | .empty => 0
  | .full f => f.monthly

/-- `len(ec2_results.get("recommendations", []))`. -/
def ec2RecCount : EC2.Ec2Result → ℕ
  | .empty => 0
  | .full f => f.recommendations.length

/-- `ec2_results.get("summary", {}).get("critical", 0)`. -/
def ec2CriticalOf : EC2.Ec2Result → ℕ
  | .empty => 0
  | .full f => f.critical

/-- `ec2_results.get("summary", {}).get("high", 0)`. -/
def ec2HighOf : EC2.Ec2Result → ℕ
  | .empty => 0
  | .full f => f.high

/-- The real-scan path of `MasterScanner.scan` (lines 72–148): run both
scanners — an exception from either aborts the scan — and assemble the
report with its executive summary. -/
def masterScan (region scanDate : String) (duration : ℕ)
    (rawInsts : List EC2.RawInst) (cw : String → EC2.CwResp)
    (vols : List EBS.RawVolume) (snaps : List EBS.RawSnapshot)
    (io : String → Option (ℕ × ℕ)) : Except PyErr Report := do
  let ec2_results ← EC2.scan region scanDate rawInsts cw
  let ebs_results ← EBS.scan region scanDate vols snaps io
  let ec2_monthly_savings := ec2MonthlyOf ec2_results
  let ebs_monthly_savings := ebs_results.monthly
  let total_monthly := ec2_monthly_savings + ebs_monthly_savings
  let total_annual := total_monthly * 12
  return { scan_date := scanDate
           region := region
           scan_duration_seconds := duration
           ec2_findings := ec2_results
           ebs_findings := ebs_results
           executive_summary :=
             { total_monthly_savings := round2 total_monthly
               total_annual_savings := round2 total_annual
               total_recommendations :=
                 ec2RecCount ec2_results + ebs_results.total_findings
               critical_items :=
                 ec2CriticalOf ec2_results + ebs_results.critical_severity
               high_priority_items :=
                 ec2HighOf ec2_results + ebs_results.high_severity } }

end Master

/-! ## JSON views of the reports

The wire shape of the report dictionaries, used to compare the
demo-mode report of `MasterScanner._generate_demo_data` with the real
report shape key-for-key. -/

/-- A JSON value (dictionaries keep field order, as Python dicts do). -/
inductive Json where
  | num (q : ℚ)
  | str (s : String)
  | bool (b : Bool)
  | null
  | arr (elems : List Json)
  | obj (fields : List (String × Json))

/-- Follow a path of dictionary keys inside a JSON value. -/
def Json.getAt : Json → List String → Option Json
  | j, [] => some j
  | .obj fields, k :: rest =>
    match fields.lookup k with
    | some j => Json.getAt j rest
    | none => none
  | _, _ :: _ => none

/-- The key list of the dictionary at a path (`none` if the path does
not lead to a dictionary). -/
def Json.keysAt (j : Json) (path : List String) : Option (List String) :=
  match j.getAt path with
  | some (.obj fields) => some (fields.map Prod.fst)
  | _ => none

/-- The number at a path. -/
def Json.numAt (j : Json) (path : List String) : Option ℚ :=
  match j.getAt path with
  | some (.num q) => some q
  | _ => none

/-- The string at a path. -/
def Json.strAt (j : Json) (path : List String) : Option String :=
  match j.getAt path with
  | some (.str s) => some s
  | _ => none

/-- The array at a path, `[]` when absent (used to sum findings over
streams a report may or may not contain). -/
def Json.itemsAt (j : Json) (path : List String) : List Json :=
  match j.getAt path with
  | some (.arr elems) => elems
  | _ => []

namespace EC2

/-- The `scenarios` sub-dictionary (shared by the `costs` and
`all_scenarios` keys of a finding). -/
def scenariosJson (sc : Scenarios) : Json :=
  .obj
    [ ("schedule", .obj
        [ ("monthly_savings", .num sc.schedule.monthly_savings),
          ("annual_savings", .num sc.schedule.annual_savings),
          ("description", .str "Stop during nights/weekends (business hours only)") ]),
      ("downsize", .obj
        [ ("monthly_savings", .num sc.downsize.monthly_savings),
          ("annual_savings", .num sc.downsize.annual_savings),
          ("new_type", .str sc.downsize_new_type),
          ("description", .str ("Downsize to " ++ sc.downsize_new_type)) ]),
      ("terminate", .obj
        [ ("monthly_savings", .num sc.terminate.monthly_savings),
          ("annual_savings", .num sc.terminate.annual_savings),
          ("description", .str "Terminate if no longer needed") ]) ]

/-- The dictionary returned by `generate_recommendation`. -/
def findingJson (f : Finding) : Json :=
  .obj
    [ ("instance_id", .str f.instance_id),
      ("instance_name", .str f.instance_name),
      ("instance_type", .str f.instance_type),
      ("region", .str f.region),
      ("metrics", .obj
        [ ("avg_cpu", .num f.avg_cpu), ("max_cpu", .num f.max_cpu),
          ("min_cpu", .num f.min_cpu), ("datapoints", .num f.datapoints) ]),
      ("costs", .obj
        [ ("current_monthly_cost", .num f.costs.current_monthly_cost),
          ("scenarios", scenariosJson f.costs) ]),
      ("recommendation", .obj
        [ ("severity", .str f.recommendation.severity),
          ("action", .str f.recommendation.action),
          ("reason", .str f.recommendation.reason),
          ("primary_savings", .num f.recommendation.primary_savings),
          ("annual_impact", .num f.recommendation.annual_impact) ]),
      ("all_scenarios", scenariosJson f.costs) ]

/-- The dictionary returned by `EC2Scanner.scan` (both shapes). -/
def resultJson : Ec2Result → Json
  | .empty =>
    .obj
      [ ("status", .str "success"),
        ("instances_scanned", .num 0),
        ("recommendations", .arr []),
        ("total_potential_savings", .num 0) ]
  | .full f =>
    .obj
      [ ("status", .str "success"),
        ("scan_date", .str f.scan_date),
        ("region", .str f.region),
        ("instances_scanned", .num f.instances_scanned),
        ("recommendations", .arr (f.recommendations.map findingJson)),
        ("summary", .obj
          [ ("critical", .num f.critical), ("high", .num f.high),
            ("medium", .num f.medium), ("low", .num f.low) ]),
        ("potential_savings", .obj
          [ ("monthly", .num f.monthly), ("annual", .num f.annual) ]) ]

end EC2

namespace EBS

/-- AWS tag lists are serialized as `[{Key, Value}]` objects. -/
def tagsJson (tags : List (String × String)) : Json :=
  .arr (tags.map fun t => .obj [("Key", .str t.1), ("Value", .str t.2)])

/-- An unattached-volume item as a dictionary. -/
def unattachedItemJson (v : UnattachedItem) : Json :=
  .obj
    [ ("volume_id", .str v.volume_id), ("size_gb", .num v.size_gb),
      ("type", .str v.vtype), ("created_date", .str v.created_date),
      ("age_days", .num v.age_days), ("monthly_cost", .num v.monthly_cost),
      ("annual_cost", .num v.annual_cost), ("severity", .str v.severity),
      ("recommendation", .str v.recommendation), ("name", .str v.name) ]

/-- An old-snapshot item as a dictionary. -/
def snapshotItemJson (s : SnapshotItem) : Json :=
  .obj
    [ ("snapshot_id", .str s.snapshot_id), ("volume_id", .str s.volume_id),
      ("size_gb", .num s.size_gb), ("created_date", .str s.created_date),
      ("age_days", .num s.age_days), ("monthly_cost", .num s.monthly_cost),
      ("annual_cost", .num s.annual_cost), ("description", .str s.description),
      ("is_ami_snapshot", .bool s.is_ami_snapshot),
      ("severity", .str s.severity),
      ("recommendation", .str s.recommendation), ("tags", tagsJson s.tags) ]

/-- A type-optimization item as a dictionary. -/
def optItemJson (o : OptItem) : Json :=
  .obj
    [ ("volume_id", .str o.volume_id), ("current_type", .str o.current_type),
      ("recommended_type", .str o.recommended_type),
      ("size_gb", .num o.size_gb),
      ("current_monthly_cost", .num o.current_monthly_cost),
      ("new_monthly_cost", .num o.new_monthly_cost),
      ("monthly_savings", .num o.monthly_savings),
      ("annual_savings", .num o.annual_savings),
      ("reason", .str o.reason), ("risk", .str o.risk),
      ("severity", .str o.severity) ]

/-- A low-activity item as a dictionary. -/
def lowActivityItemJson (v : LowActivityItem) : Json :=
  .obj
    [ ("volume_id", .str v.volume_id), ("size_gb", .num v.size_gb),
      ("type", .str v.vtype),
      ("instance_id", match v.instance_id with
        | some i => .str i
        | none => .null),
      ("io_stats", .obj
        [ ("total_read_ops", .num v.io_stats.total_read_ops),
          ("total_write_ops", .num v.io_stats.total_write_ops),
          ("avg_read_ops_per_day", .num v.io_stats.avg_read_ops_per_day),
          ("avg_write_ops_per_day", .num v.io_stats.avg_write_ops_per_day) ]),
      ("monthly_cost", .num v.monthly_cost), ("severity", .str v.severity),
      ("recommendation", .str v.recommendation), ("name", .str v.name) ]

/-- The `analyze_snapshot_lifecycle` dictionary. -/
def snapAnalysisJson (a : SnapAnalysis) : Json :=
  .obj
    [ ("total_snapshots", .num a.total_snapshots),
      ("total_size_gb", .num a.total_size_gb),
      ("total_monthly_cost", .num a.total_monthly_cost),
      ("volumes_with_snapshots", .num a.volumes_with_snapshots),
      ("avg_snapshots_per_volume", .num a.avg_snapshots_per_volume),
      ("age_distribution",
        .obj (a.age_distribution.map fun b => (b.1, .num b.2))),
      ("recommendations", .arr (a.recommendations.map fun r =>
        .obj
          [ ("volume_id", .str r.volume_id),
            ("snapshot_count", .num r.snapshot_count),
            ("recommendation", .str r.recommendation),
            ("severity", .str r.severity) ])) ]

/-- The dictionary returned by `EBSScanner.scan`. -/
def resultJson (r : EbsResult) : Json :=
  .obj
    [ ("status", .str "success"),
      ("scan_date", .str r.scan_date),
      ("region", .str r.region),
      ("findings", .obj
        [ ("unattached_volumes", .obj
            [ ("count", .num r.unattached.length),
              ("items", .arr (r.unattached.map unattachedItemJson)),
              ("total_monthly_cost", .num r.unattached_total_monthly_cost) ]),
          ("old_snapshots", .obj
            [ ("count", .num r.old_snapshots.length),
              ("items", .arr (r.old_snapshots.map snapshotItemJson)),
              ("total_monthly_cost", .num r.old_snapshots_total_monthly_cost) ]),
          ("volume_optimizations", .obj
            [ ("count", .num r.volume_optimizations.length),
              ("items", .arr (r.volume_optimizations.map optItemJson)),
              ("potential_monthly_savings",
                .num r.volume_optimizations_potential_monthly_savings) ]),
          ("low_activity_volumes", .obj
            [ ("count", .num r.low_activity.length),
              ("items", .arr (r.low_activity.map lowActivityItemJson)),
              ("potential_monthly_cost",
                .num r.low_activity_potential_monthly_cost) ]) ]),
      ("snapshot_analysis", snapAnalysisJson r.snapshot_analysis),
      ("summary", .obj
        [ ("total_findings", .num r.total_findings),
          ("critical_severity", .num r.critical_severity),
          ("high_severity", .num r.high_severity),
          ("medium_severity", .num r.medium_severity) ]),
      ("potential_savings", .obj
        [ ("monthly", .num r.monthly), ("annual", .num r.annual) ]) ]

end EBS

namespace Master

/-- The real report of `MasterScanner.scan` as a dictionary
(lines 104–129 of `master_scanner.py`). -/
def reportJson (r : Report) : Json :=
  .obj
    [ ("scan_metadata", .obj
        [ ("scan_date", .str r.scan_date),
          ("region", .str r.region),
          ("scanners_run", .arr [.str "EC2", .str "EBS"]),
          ("scan_duration_seconds", .num r.scan_duration_seconds) ]),
      ("ec2_findings", EC2.resultJson r.ec2_findings),
      ("ebs_findings", EBS.resultJson r.ebs_findings),
      ("executive_summary", .obj
        [ ("total_monthly_savings", .num r.executive_summary.total_monthly_savings),
          ("total_annual_savings", .num r.executive_summary.total_annual_savings),
          ("total_recommendations", .num r.executive_summary.total_recommendations),
          ("critical_items", .num r.executive_summary.critical_items),
          ("high_priority_items", .num r.executive_summary.high_priority_items) ]) ]

/-- `MasterScanner._generate_demo_data`, transcribed field by field
(`scan_date`, the wall-clock timestamp, is a parameter). -/
def demoReport (scanDate : String) : Json :=
  .obj
    [ ("scan_metadata", .obj
        [ ("scan_date", .str scanDate),
          ("region", .str "eu-west-2"),
          ("scanners_run", .arr [.str "EC2", .str "EBS"]),
          ("scan_duration_seconds", .num 3) ]),
      ("ec2_findings", .obj
        [ ("instances_scanned", .num 15),
          ("recommendations", .arr
            [ .obj
                [ ("instance_id", .str "i-demo-web-prod"),
                  ("instance_name", .str "legacy-web-prod"),
                  ("instance_type", .str "m5.large"),
                  ("metrics", .obj
                    [ ("avg_cpu", .num 2.5), ("max_cpu", .num 12.0),
                      ("min_cpu", .num 0.5), ("datapoints", .num 1440) ]),
                  ("costs", .obj [("current_monthly_cost", .num 76.00)]),
                  ("recommendation", .obj
                    [ ("action", .str "Rightsize"),
                      ("reason", .str "Instance is underutilized (Avg CPU < 3%). Downgrade to t3.medium."),
                      ("primary_savings", .num 42.50),
                      ("annual_impact", .num 510.00),
                      ("severity", .str "high") ]),
                  ("all_scenarios", .obj []) ],
              .obj
                [ ("instance_id", .str "i-demo-test-worker"),
                  ("instance_name", .str "dev-test-worker"),
                  ("instance_type", .str "t3.xlarge"),
                  ("metrics", .obj
                    [ ("avg_cpu", .num 0.1), ("max_cpu", .num 0.5),
                      ("min_cpu", .num 0.0), ("datapoints", .num 1440) ]),
                  ("costs", .obj [("current_monthly_cost", .num 120.00)]),
                  ("recommendation", .obj
                    [ ("action", .str "Terminate"),
                      ("reason", .str "Idle instance detected. CPU < 1% for 7 days."),
                      ("primary_savings", .num 120.00),
                      ("annual_impact", .num 1440.00),
                      ("severity", .str "critical") ]),
                  ("all_scenarios", .obj []) ] ]),
          ("summary", .obj [("critical", .num 1), ("high", .num 1)]) ]),
      ("ebs_findings", .obj
        [ ("findings", .obj
            [ ("unattached_volumes", .obj
                [ ("items", .arr
                    [ .obj
                        [ ("volume_id", .str "vol-demo-unused"),
                          ("name", .str "old-backup-data"),
                          ("type", .str "gp2"),
                          ("size_gb", .num 500),
                          ("age_days", .num 45),
                          ("monthly_cost", .num 50.00),
                          ("annual_cost", .num 600.00),
                          ("recommendation", .str "Delete unattached volume (detached 45 days ago)"),
                          ("severity", .str "medium") ] ]) ]),
              ("volume_optimizations", .obj
                [ ("items", .arr
                    [ .obj
                        [ ("volume_id", .str "vol-demo-io1"),
                          ("current_type", .str "io1"),
                          ("recommended_type", .str "gp3"),
                          ("size_gb", .num 1000),
                          ("current_monthly_cost", .num 225.00),
                          ("monthly_savings", .num 145.00),
                          ("reason", .str "Migrate IO1 to GP3 for 4x cost efficiency"),
                          ("severity", .str "high") ] ]) ]) ]),
          ("summary", .obj
            [ ("total_findings", .num 2),
              ("critical_severity", .num 0),
              ("high_severity", .num 1) ]) ]),
      ("executive_summary", .obj
        [ ("total_monthly_savings", .num 357.50),
          ("total_annual_savings", .num 4290.00),
          ("total_recommendations", .num 4),
          ("critical_items", .num 1),
          ("high_priority_items", .num 2) ]) ]

end Master

/-! ## Implementation ledger (`backend/api/routes/findings.py`) -/

namespace Api

/-- The names in scope at the body of `mark_as_implemented` in
`backend/api/routes/findings.py`: module imports, module-level
definitions, the function's parameters and its local bindings.
`datetime` is not imported by this module and is not among them. -/
def findingsScope : List String :=
  [ "Any", "Dict", "schemas", "EBSFinding", "EC2Finding", "ScanRun",
    "get_db", "APIRouter", "Depends", "HTTPException", "Session",
    "router", "get_latest_findings", "mark_as_implemented",
    "SavingsRealized", "finding_type", "finding_id", "request", "db",
    "finding", "savings", "realized" ]

/-- A persisted `EC2Finding` row (the columns the route reads/writes). -/
structure Ec2Row where
  id : ℕ
  potential_monthly_savings : ℚ
  is_implemented : Bool
  implementation_date : Option String
  implementation_notes : Option String
  deriving Repr, DecidableEq

/-- A persisted `EBSFinding` row (the columns the route reads/writes). -/
structure EbsRow where
  id : ℕ
  potential_monthly_savings : ℚ
  is_implemented : Bool
  implementation_date : Option String
  implementation_notes : Option String
  deriving Repr, DecidableEq

/-- A `SavingsRealized` ledger row (`implementedBy` stands for the
snake-cased audit column of the source). -/
structure RealizedRow where
  finding_type : String
  finding_id : ℕ
  action_taken : String
  monthly_savings_realized : ℚ
  annual_savings_realized : ℚ
  implementedBy : String
  notes : String
  deriving Repr, DecidableEq

/-- The database state the findings routes touch. -/
structure Db where
  ec2_findings : List Ec2Row
  ebs_findings : List EbsRow
  savings_realized : List RealizedRow
  deriving Repr, DecidableEq

/-- The request body `schemas.ImplementationRequest`. -/
structure ImplementationRequest where
  action_taken : String
  notes : String
  implementedBy : String
  deriving Repr, DecidableEq

/-- The response `schemas.ImplementationResponse`. -/
structure ImplementationResponse where
  success : Bool
  message : String
  monthly_savings_realized : ℚ
  annual_savings_realized : ℚ
  deriving Repr, DecidableEq

/-- The committed success path of `mark_as_implemented` for an EC2
finding — reachable only if the name `datetime` resolves. -/
def markEc2Success (db : Db) (f : Ec2Row) (findingId : ℕ) (now : String)
    (req : ImplementationRequest) : Db × ImplementationResponse :=
  let updated :=
    { f with is_implemented := true, implementation_date := some now,
             implementation_notes := some req.notes }
  let realized : RealizedRow :=
    { finding_type := "ec2"
      finding_id := findingId
      action_taken := req.action_taken
      monthly_savings_realized := f.potential_monthly_savings
      annual_savings_realized := f.potential_monthly_savings * 12
      implementedBy := req.implementedBy
      notes := req.notes }
  ( { db with
        ec2_findings := db.ec2_findings.map fun g =>
          if g.id = findingId then updated else g
        savings_realized := db.savings_realized ++ [realized] },
    { success := true
      message := "Successfully marked ec2 finding " ++ toString findingId ++
        " as implemented"
      monthly_savings_realized := f.potential_monthly_savings
      annual_savings_realized := f.potential_monthly_savings * 12 } )

/-- The committed success path for an EBS finding. -/
def markEbsSuccess (db : Db) (f : EbsRow) (findingId : ℕ) (now : String)
    (req : ImplementationRequest) : Db × ImplementationResponse :=
  let updated :=
    { f with is_implemented := true, implementation_date := some now,
             implementation_notes := some req.notes }
  let realized : RealizedRow :=
    { finding_type := "ebs"
      finding_id := findingId
      action_taken := req.action_taken
      monthly_savings_realized := f.potential_monthly_savings
      annual_savings_realized := f.potential_monthly_savings * 12
      implementedBy := req.implementedBy
      notes := req.notes }
  ( { db with
        ebs_findings := db.ebs_findings.map fun g =>
          if g.id = findingId then updated else g
        savings_realized := db.savings_realized ++ [realized] },
    { success := true
      message := "Successfully marked ebs finding " ++ toString findingId ++
        " as implemented"
      monthly_savings_realized := f.potential_monthly_savings
      annual_savings_realized := f.potential_monthly_savings * 12 } )

/-- `mark_as_implemented(finding_type, finding_id, request, db)`.

The route looks the finding up (404 when absent, 400 for an unknown
category), then runs `finding.implementation_date = datetime.utcnow()`.
`datetime` is resolved in `findingsScope`; since the module never
imports it, that line raises `NameError` and the request fails before
`db.commit()` — the session opened by `get_db` is closed without
committing, so the database is returned unchanged (rolled back).  The
success path (guarded behind the name resolution) is `markEc2Success` /
`markEbsSuccess`; `now` stands for the value `datetime.utcnow()` would
produce. -/
def mark_as_implemented (findingType : String) (findingId : ℕ)
    (req : ImplementationRequest) (now : String) (db : Db) :
    Db × Except PyErr ImplementationResponse :=
  if findingType = "ec2" then
    match db.ec2_findings.find? (fun f => f.id == findingId) with
    | none => (db, .error (.httpError 404 "EC2 finding not found"))
    | some f =>
      match pyResolve findingsScope "datetime" with
      | .error e => (db, .error e)
      | .ok _ =>
        let (db2, resp) := markEc2Success db f findingId now req
        (db2, .ok resp)
  else if findingType = "ebs" then
    match db.ebs_findings.find? (fun f => f.id == findingId) with
    | none => (db, .error (.httpError 404 "EBS finding not found"))
    | some f =>
      match pyResolve findingsScope "datetime" with
      | .error e => (db, .error e)
      | .ok _ =>
        let (db2, resp) := markEbsSuccess db f findingId now req
        (db2, .ok resp)
  else
    (db, .error (.httpError 400 "finding_type must be 'ec2' or 'ebs'"))

/-- One call descriptor, for iterating the route. -/
structure MarkCall where
  finding_type : String
  finding_id : ℕ
  req : ImplementationRequest
  now : String
  deriving Repr, DecidableEq

/-- Apply a sequence of `mark_as_implemented` calls to the database,
keeping the state each call leaves behind. -/
def runMarkCalls (calls : List MarkCall) (db : Db) : Db :=
  calls.foldl
    (fun st c => (mark_as_implemented c.finding_type c.finding_id c.req c.now st).1)
    db

/-- The number of `SavingsRealized` rows for one
`(finding_type, finding_id)` pair. -/
def realizedCount (db : Db) (findingType : String) (findingId : ℕ) : ℕ :=
  (db.savings_realized.filter fun r =>
    r.finding_type = findingType ∧ r.finding_id = findingId).length

end Api

/-! ## Spec-side definition for the executive-summary invariant -/

/-- Following the spec's words (not the code): the sum of
primary-scenario monthly savings over all findings of a report (JSON
view) whose severity is actionable, i.e. not `"info"`.  EC2
recommendations contribute `recommendation.primary_savings`;
unattached volumes, old snapshots and low-activity volumes contribute
their `monthly_cost` (their primary scenario is deleting the
resource); type optimizations contribute `monthly_savings`.  A stream
the report does not contain contributes nothing. -/
def specActionableSavingsSum (j : Json) : ℚ :=
  let stream := fun (path sevPath valPath : List String) =>
    ((j.itemsAt path).map fun r =>
      if r.strAt sevPath = some "info" then 0
      else (r.numAt valPath).getD 0).sum
  stream ["ec2_findings", "recommendations"]
      ["recommendation", "severity"] ["recommendation", "primary_savings"]
    + stream ["ebs_findings", "findings", "unattached_volumes", "items"]
        ["severity"] ["monthly_cost"]
    + stream ["ebs_findings", "findings", "old_snapshots", "items"]
        ["severity"] ["monthly_cost"]
    + stream ["ebs_findings", "findings", "volume_optimizations", "items"]
        ["severity"] ["monthly_savings"]
    + stream ["ebs_findings", "findings", "low_activity_volumes", "items"]
        ["severity"] ["monthly_cost"]

/-! ## Theorems -/

/-- Helper: the name `datetime` does not resolve in the scope of
`backend/api/routes/findings.py`. -/
theorem datetime_unresolved :
    pyResolve Api.findingsScope "datetime" = .error (.nameError "datetime") := rfl

/-- Helper: `mark_as_implemented` leaves the database unchanged on
every input — each branch either raises before touching it or the
uncommitted session change is rolled back. -/
theorem mark_as_implemented_state_eq (ft : String) (fid : ℕ)
    (req : Api.ImplementationRequest) (now : String) (db : Api.Db) :
    (Api.mark_as_implemented ft fid req now db).1 = db := by
  unfold Api.mark_as_implemented
  split_ifs with h1 h2
  · cases h : db.ec2_findings.find? (fun f => f.id == fid) <;>
      simp [datetime_unresolved]
  · cases h : db.ebs_findings.find? (fun f => f.id == fid) <;>
      simp [datetime_unresolved]
  · rfl

/-- Helper: `mark_as_implemented` never returns a success response. -/
theorem mark_as_implemented_never_ok (ft : String) (fid : ℕ)
    (req : Api.ImplementationRequest) (now : String) (db : Api.Db)
    (resp : Api.ImplementationResponse) :
    (Api.mark_as_implemented ft fid req now db).2 ≠ .ok resp := by
  unfold Api.mark_as_implemented
  split_ifs with h1 h2
  · cases h : db.ec2_findings.find? (fun f => f.id == fid) <;>
      simp [datetime_unresolved]
  · cases h : db.ebs_findings.find? (fun f => f.id == fid) <;>
      simp [datetime_unresolved]
  · simp

/-- **C7.** For every region, constructing the orchestrator with demo
mode disabled fails with an unbound-name error: `MasterScanner.__init__`
passes the undefined name `profile_name` to `EC2Scanner` and
`EBSScanner`, so in live mode a scan always fails before either
classifier is constructed, let alone run. -/
theorem c7_live_init_unbound_profile_name (region : String) :
    Master.scannerInit false region = .error (.nameError "profile_name") := rfl

/-- **C2.** The compute classifier does *not* return a finding for
every sample: for an error-status sample (treated as 0 % utilization)
it does produce one finding, but for a healthy sample with
`avg_cpu ≥ 20 %` it sets the recommended action to `"none"` and then
evaluates `savings["scenarios"]["none"]`, whose key does not exist —
`KeyError` — aborting the scan.  Failing input: a running `t3.large`
with one CloudWatch datapoint `(avg 25 %, max 30 %)`. -/
theorem c2_healthy_sample_raises_key_error :
    EC2.generate_recommendation "eu-west-2" ⟨"i-000", "web", "t3.large"⟩
        (EC2.get_cpu_metrics (.ok [(25, 30)])) = .error (.keyError "none") ∧
      (EC2.generate_recommendation "eu-west-2" ⟨"i-000", "web", "t3.large"⟩
        (EC2.get_cpu_metrics .err)).isOk = true ∧
      (EC2.generate_recommendation "eu-west-2" ⟨"i-000", "web", "t3.large"⟩
        (EC2.get_cpu_metrics (.ok []))).isOk = true := by
  refine ⟨by decide, by decide, by decide⟩

/-- **C3.** `mark_as_implemented` correctly fails with 404 when the
finding does not exist, but the success path never succeeds: the
module `backend/api/routes/findings.py` never imports `datetime`, so
`finding.implementation_date = datetime.utcnow()` raises `NameError`
for every existing finding, before the `SavingsRealized` row or the
implemented flag can be committed; the database is left unchanged. -/
theorem c3_mark_implemented_raises_name_error :
    (Api.mark_as_implemented "ec2" 7 ⟨"stopped_instance", "n", "admin"⟩
        "2026-01-01" ⟨[⟨1, 42.5, false, none, none⟩], [], []⟩).2 =
      .error (.httpError 404 "EC2 finding not found") ∧
    Api.mark_as_implemented "ec2" 1 ⟨"stopped_instance", "n", "admin"⟩
        "2026-01-01" ⟨[⟨1, 42.5, false, none, none⟩], [], []⟩ =
      (⟨[⟨1, 42.5, false, none, none⟩], [], []⟩,
        .error (.nameError "datetime")) := by
  refine ⟨rfl, rfl⟩

/-- **C4 counterexample.** Re-marking an already-implemented finding
does not fail with one of the route's defined errors (404 / 400) and
is not a successful no-op: it fails with the unhandled `NameError`
from the missing `datetime` import. -/
theorem c4_counterexample_undefined_error :
    ¬ ((Api.mark_as_implemented "ec2" 1 ⟨"stopped_instance", "n", "admin"⟩
          "2026-01-02" ⟨[⟨1, 42.5, true, some "2026-01-01", some "n"⟩], [], []⟩).2 =
            .error (.httpError 404 "EC2 finding not found") ∨
        (Api.mark_as_implemented "ec2" 1 ⟨"stopped_instance", "n", "admin"⟩
          "2026-01-02" ⟨[⟨1, 42.5, true, some "2026-01-01", some "n"⟩], [], []⟩).2 =
            .error (.httpError 400 "finding_type must be 'ec2' or 'ebs'") ∨
        ((Api.mark_as_implemented "ec2" 1 ⟨"stopped_instance", "n", "admin"⟩
          "2026-01-02" ⟨[⟨1, 42.5, true, some "2026-01-01", some "n"⟩], [], []⟩).2).isOk
          = true) ∧
      (Api.mark_as_implemented "ec2" 1 ⟨"stopped_instance", "n", "admin"⟩
          "2026-01-02" ⟨[⟨1, 42.5, true, some "2026-01-01", some "n"⟩], [], []⟩).2 =
        .error (.nameError "datetime") := by
  have h : (Api.mark_as_implemented "ec2" 1 ⟨"stopped_instance", "n", "admin"⟩
      "2026-01-02" ⟨[⟨1, 42.5, true, some "2026-01-01", some "n"⟩], [], []⟩).2 =
        .error (.nameError "datetime") := by decide
  refine ⟨?_, h⟩
  intro hc
  rcases hc with hc | hc | hc <;> rw [h] at hc <;>
    simp [Except.isOk, Except.toBool] at hc

/-- **C4 (amended).** `mark_as_implemented` never succeeds (every call
that finds its finding dies on the `NameError` of the missing
`datetime` import, and the rolled-back session leaves the database
unchanged), so no call sequence ever creates a `SavingsRealized` row:
at most one row per `(finding_type, finding_id)` pair holds in every
reachable execution — vacuously, and not because of any uniqueness
guard.  There is no guard: the re-mark failure is an undefined
`NameError`, not one of the route's defined errors. -/
theorem c4_amended_at_most_one_realized_row :
    (∀ ft fid req now db resp,
        (Api.mark_as_implemented ft fid req now db).2 ≠ .ok resp) ∧
      (∀ calls db, Api.runMarkCalls calls db = db) ∧
      (∀ calls db ft fid, Api.realizedCount db ft fid ≤ 1 →
        Api.realizedCount (Api.runMarkCalls calls db) ft fid ≤ 1) := by
  have hrun : ∀ calls db, Api.runMarkCalls calls db = db := by
    intro calls
    induction calls with
    | nil => intro db; rfl
    | cons c cs ih =>
      intro db
      show Api.runMarkCalls cs
        (Api.mark_as_implemented c.finding_type c.finding_id c.req c.now db).1 = db
      rw [mark_as_implemented_state_eq, ih]
  exact ⟨mark_as_implemented_never_ok, hrun,
    fun calls db ft fid h => by rw [hrun]; exact h⟩

/-- Helper: the severity and action of a produced compute finding are
the first two components of the threshold decision on `avg_cpu`. -/
theorem generate_recommendation_sev_act (region : String) (i : EC2.Inst)
    (cm : EC2.CpuMetrics) (f : EC2.Finding)
    (h : EC2.generate_recommendation region i cm = .ok f) :
    f.recommendation.severity = (EC2.recDecision cm.avg).1 ∧
      f.recommendation.action = (EC2.recDecision cm.avg).2.1 := by
  simp only [EC2.generate_recommendation] at h
  rcases hd : EC2.recDecision cm.avg with ⟨sev, act, reas⟩
  rw [hd] at h
  cases hl : EC2.scenarioLookup
      (EC2.calculate_savings_scenarios i.itype cm.avg) act with
  | none => rw [hl] at h; exact absurd h (by simp)
  | some s =>
    rw [hl] at h
    cases h
    exact ⟨rfl, rfl⟩

/-- **C5.** Severity and recommended action of a compute finding are a
pure function of `avg_cpu` alone (identical `avg_cpu` gives identical
severity/action — and identical `KeyError` behaviour — whatever the
instance id, name, type or region), decided by the ordered thresholds
`< 2 → critical/terminate`, `< 5 → high/schedule`,
`< 10 → medium/downsize`, `< 20 → low/schedule`, otherwise
`info/none`; a `t3.large` at 1.5 % yields severity `critical`, action
`terminate` and primary monthly savings `68.91 = round2 (0.0944 × 730)`. -/
theorem c5_severity_pure_function_of_avg_cpu :
    (∀ (region₁ region₂ : String) (i₁ i₂ : EC2.Inst)
        (cm₁ cm₂ : EC2.CpuMetrics), cm₁.avg = cm₂.avg →
        (EC2.generate_recommendation region₁ i₁ cm₁).map
            (fun f => (f.recommendation.severity, f.recommendation.action)) =
          (EC2.generate_recommendation region₂ i₂ cm₂).map
            (fun f => (f.recommendation.severity, f.recommendation.action))) ∧
      (∀ (region : String) (i : EC2.Inst) (cm : EC2.CpuMetrics)
          (f : EC2.Finding), EC2.generate_recommendation region i cm = .ok f →
        (cm.avg < 2 → f.recommendation.severity = "critical" ∧
            f.recommendation.action = "terminate") ∧
          (2 ≤ cm.avg → cm.avg < 5 → f.recommendation.severity = "high" ∧
            f.recommendation.action = "schedule") ∧
          (5 ≤ cm.avg → cm.avg < 10 → f.recommendation.severity = "medium" ∧
            f.recommendation.action = "downsize") ∧
          (10 ≤ cm.avg → cm.avg < 20 → f.recommendation.severity = "low" ∧
            f.recommendation.action = "schedule")) ∧
      (∀ avg : ℚ, 20 ≤ avg →
        (EC2.recDecision avg).1 = "info" ∧ (EC2.recDecision avg).2.1 = "none") ∧
      (EC2.generate_recommendation "eu-west-1" ⟨"i-a", "a", "t3.large"⟩
          ⟨1.5, 3, some 1, 14, "ok"⟩).map
          (fun f => (f.recommendation.severity, f.recommendation.action,
            f.recommendation.primary_savings)) =
        .ok ("critical", "terminate", 68.91) := by
  refine ⟨?_, ?_, ?_, by decide⟩
  · intro r1 r2 i1 i2 cm1 cm2 h
    simp only [EC2.generate_recommendation]
    rw [h]
    rcases hd : EC2.recDecision cm2.avg with ⟨sev, act, reas⟩
    unfold EC2.scenarioLookup
    split_ifs <;> rfl
  · intro region i cm f h
    have hsa := generate_recommendation_sev_act region i cm f h
    refine ⟨fun h2 => ?_, fun h2 h5 => ?_, fun h5 h10 => ?_, fun h10 h20 => ?_⟩
    · rw [hsa.1, hsa.2]; unfold EC2.recDecision
      rw [if_pos h2]; exact ⟨rfl, rfl⟩
    · rw [hsa.1, hsa.2]; unfold EC2.recDecision
      rw [if_neg (by linarith), if_pos h5]; exact ⟨rfl, rfl⟩
    · rw [hsa.1, hsa.2]; unfold EC2.recDecision
      rw [if_neg (by linarith), if_neg (by linarith), if_pos h10]
      exact ⟨rfl, rfl⟩
    · rw [hsa.1, hsa.2]; unfold EC2.recDecision
      rw [if_neg (by linarith), if_neg (by linarith), if_neg (by linarith),
        if_pos h20]
      exact ⟨rfl, rfl⟩
  · intro avg h
    unfold EC2.recDecision
    rw [if_neg (by linarith), if_neg (by linarith), if_neg (by linarith),
      if_neg (by linarith)]
    exact ⟨rfl, rfl⟩

/-- Witness for C5: the theorem applied at two concrete instances with
the same 1.5 % average (different ids and types), discharging every
hypothesis. -/
theorem c5_witness :
    ((EC2.generate_recommendation "eu-west-1" ⟨"i-a", "a", "t3.large"⟩
        ⟨1.5, 3, some 1, 14, "ok"⟩).map
        (fun f => (f.recommendation.severity, f.recommendation.action)) =
      (EC2.generate_recommendation "eu-west-2" ⟨"i-b", "b", "m5.xlarge"⟩
        ⟨1.5, 90, some 0, 7, "ok"⟩).map
        (fun f => (f.recommendation.severity, f.recommendation.action))) ∧
      (∃ f, EC2.generate_recommendation "eu-west-1" ⟨"i-a", "a", "t3.large"⟩
          ⟨1.5, 3, some 1, 14, "ok"⟩ = .ok f ∧
        f.recommendation.severity = "critical" ∧
          f.recommendation.action = "terminate") ∧
      (EC2.recDecision 25).1 = "info" ∧ (EC2.recDecision 25).2.1 = "none" := by
  have hpure := c5_severity_pure_function_of_avg_cpu.1 "eu-west-1" "eu-west-2"
    ⟨"i-a", "a", "t3.large"⟩ ⟨"i-b", "b", "m5.xlarge"⟩
    ⟨1.5, 3, some 1, 14, "ok"⟩ ⟨1.5, 90, some 0, 7, "ok"⟩ rfl
  refine ⟨hpure, ?_, c5_severity_pure_function_of_avg_cpu.2.2.1 25 (by norm_num)⟩
  cases hgen : EC2.generate_recommendation "eu-west-1" ⟨"i-a", "a", "t3.large"⟩
      ⟨1.5, 3, some 1, 14, "ok"⟩ with
  | error e =>
    have hok : (EC2.generate_recommendation "eu-west-1" ⟨"i-a", "a", "t3.large"⟩
        ⟨1.5, 3, some 1, 14, "ok"⟩).isOk = true := by decide
    rw [hgen] at hok
    exact absurd hok (by simp [Except.isOk, Except.toBool])
  | ok f =>
    have h := (c5_severity_pure_function_of_avg_cpu.2.1 "eu-west-1"
      ⟨"i-a", "a", "t3.large"⟩ ⟨1.5, 3, some 1, 14, "ok"⟩ f hgen).1 (by norm_num)
    exact ⟨f, rfl, h⟩

/-- Helper: `find_unattached_volumes` is exactly the map of
`unattachedItem` over the volumes in state `available`. -/
theorem find_unattached_volumes_eq (vols : List EBS.RawVolume) :
    EBS.find_unattached_volumes vols =
      (vols.filter fun v => v.state = "available").map EBS.unattachedItem := by
  unfold EBS.find_unattached_volumes
  induction vols with
  | nil => rfl
  | cons v vs ih =>
    by_cases hv : v.state = "available" <;>
      simp [List.filterMap_cons, List.filter_cons, hv, ih]

/-- **C8.** Every volume in state `available` yields exactly one
unattached-volume finding; its severity depends on age alone with
exclusive boundaries (`> 90 → critical`, `> 30 → high`, `> 7 → medium`,
else `low`), and its potential saving is the volume's full monthly
cost, `size_gb × per-GB rate` rounded to 2 decimals. -/
theorem c8_unattached_volume_findings :
    (∀ (vols : List EBS.RawVolume) (v : EBS.RawVolume), v ∈ vols →
        v.state = "available" →
        EBS.unattachedItem v ∈ EBS.find_unattached_volumes vols) ∧
      (∀ vols : List EBS.RawVolume,
        (EBS.find_unattached_volumes vols).length =
          (vols.filter fun v => v.state = "available").length) ∧
      (∀ v : EBS.RawVolume, v.state = "available" →
        ∃ item, EBS.find_unattached_volumes [v] = [item] ∧
          (90 < v.ageDays → item.severity = "critical") ∧
          (30 < v.ageDays → v.ageDays ≤ 90 → item.severity = "high") ∧
          (7 < v.ageDays → v.ageDays ≤ 30 → item.severity = "medium") ∧
          (v.ageDays ≤ 7 → item.severity = "low") ∧
          item.monthly_cost = round2 (v.size * EBS.volumePriceOf v.vtype) ∧
          item.size_gb = v.size ∧ item.volume_id = v.id) := by
  refine ⟨?_, ?_, ?_⟩
  · intro vols v hmem hstate
    rw [find_unattached_volumes_eq]
    exact List.mem_map_of_mem _ (List.mem_filter.2 ⟨hmem, by simp [hstate]⟩)
  · intro vols
    rw [find_unattached_volumes_eq, List.length_map]
  · intro v hstate
    refine ⟨EBS.unattachedItem v, by simp [find_unattached_volumes_eq, hstate],
      ?_, ?_, ?_, ?_, rfl, rfl, rfl⟩
    · intro h90
      simp only [EBS.unattachedItem]
      rw [if_pos (by omega : v.ageDays > 90)]
    · intro h30 h90
      simp only [EBS.unattachedItem]
      rw [if_neg (by omega : ¬ v.ageDays > 90), if_pos (by omega : v.ageDays > 30)]
    · intro h7 h30
      simp only [EBS.unattachedItem]
      rw [if_neg (by omega : ¬ v.ageDays > 90), if_neg (by omega : ¬ v.ageDays > 30),
        if_pos (by omega : v.ageDays > 7)]
    · intro h7
      simp only [EBS.unattachedItem]
      rw [if_neg (by omega : ¬ v.ageDays > 90), if_neg (by omega : ¬ v.ageDays > 30),
        if_neg (by omega : ¬ v.ageDays > 7)]

/-- Witness for C8: an unattached 200 GB gp3 volume, 95 days old —
severity `critical`, monthly cost 19.20 (the spec's own scenario) —
and the boundary ages 90/91/30/31. -/
theorem c8_witness :
    (∃ item, EBS.find_unattached_volumes
        [⟨"vol-a", 200, "gp3", "available", 95, "2025-07-09", [], [], none⟩] =
          [item] ∧ item.severity = "critical" ∧ item.monthly_cost = 19.2) ∧
      (EBS.unattachedItem
        ⟨"vol-a", 200, "gp3", "available", 90, "d", [], [], none⟩).severity = "high" ∧
      (EBS.unattachedItem
        ⟨"vol-a", 200, "gp3", "available", 91, "d", [], [], none⟩).severity = "critical" ∧
      (EBS.unattachedItem
        ⟨"vol-a", 200, "gp3", "available", 30, "d", [], [], none⟩).severity = "medium" ∧
      (EBS.unattachedItem
        ⟨"vol-a", 200, "gp3", "available", 31, "d", [], [], none⟩).severity = "high" := by
  obtain ⟨item, heq, hcrit, _, _, _, hcost, _, _⟩ :=
    c8_unattached_volume_findings.2.2
      ⟨"vol-a", 200, "gp3", "available", 95, "2025-07-09", [], [], none⟩ rfl
  exact ⟨⟨item, heq, hcrit (by decide), by rw [hcost]; decide⟩,
    by decide, by decide, by decide, by decide⟩

/-- **C9.** Every gp2 volume yields a type-optimization finding
recommending gp3 with severity `medium`; an io1/io2 volume yields a
gp3 recommendation with severity `high` exactly when its provisioned
IOPS < 10000 (none when ≥ 10000); a 500 GB gp2 volume's finding has
`monthly_savings = 12.00 = round2 (500×0.12) − round2 (500×0.096)`. -/
theorem c9_volume_type_optimizations :
    (∀ v : EBS.RawVolume, v.vtype = "gp2" →
        ∃ o, EBS.find_volume_type_optimizations [v] = .ok [o] ∧
          o.recommended_type = "gp3" ∧ o.severity = "medium" ∧
          o.monthly_savings = round2 (EBS.calculate_volume_cost v.size "gp2" -
            EBS.calculate_volume_cost v.size "gp3") ∧ o.size_gb = v.size) ∧
      (∀ (v : EBS.RawVolume) (i : ℕ), (v.vtype = "io1" ∨ v.vtype = "io2") →
        v.iops = some i → i < 10000 →
        ∃ o, EBS.find_volume_type_optimizations [v] = .ok [o] ∧
          o.recommended_type = "gp3" ∧ o.severity = "high") ∧
      (∀ (v : EBS.RawVolume) (i : ℕ), (v.vtype = "io1" ∨ v.vtype = "io2") →
        v.iops = some i → 10000 ≤ i →
        EBS.find_volume_type_optimizations [v] = .ok []) ∧
      (EBS.find_volume_type_optimizations
          [⟨"vol-b", 500, "gp2", "in-use", 10, "2026-01-01", ["i-1"], [], none⟩]).map
          (fun l => l.map fun o => o.monthly_savings) = .ok [12] := by
  refine ⟨?_, ?_, ?_, by decide⟩
  · intro v hgp2
    have hstep : EBS.optimizationStep v = .ok (some (EBS.gp2OptItem v)) := by
      simp [EBS.optimizationStep, hgp2]
    have heq : EBS.find_volume_type_optimizations [v] = .ok [EBS.gp2OptItem v] := by
      simp only [EBS.find_volume_type_optimizations, hstep]
      rfl
    refine ⟨EBS.gp2OptItem v, heq, rfl, rfl,
      by simp only [EBS.gp2OptItem]; rw [hgp2], rfl⟩
  · intro v i hio hiops hlt
    have hne : ¬ v.vtype = "gp2" := by rcases hio with h | h <;> simp [h]
    have hstep : EBS.optimizationStep v = .ok (some (EBS.ioOptItem v i)) := by
      simp [EBS.optimizationStep, hne, hio, hiops, hlt]
    have heq : EBS.find_volume_type_optimizations [v] = .ok [EBS.ioOptItem v i] := by
      simp only [EBS.find_volume_type_optimizations, hstep]
      rfl
    exact ⟨EBS.ioOptItem v i, heq, rfl, rfl⟩
  · intro v i hio hiops hge
    have hne : ¬ v.vtype = "gp2" := by rcases hio with h | h <;> simp [h]
    have hnlt : ¬ i < 10000 := by omega
    have hstep : EBS.optimizationStep v = .ok none := by
      simp [EBS.optimizationStep, hne, hio, hiops, hnlt]
    simp only [EBS.find_volume_type_optimizations, hstep]
    rfl

/-- Witness for C9: a 500 GB gp2 volume, a 3000-IOPS io1 volume and a
20000-IOPS io2 volume, with every hypothesis discharged concretely. -/
theorem c9_witness :
    (∃ o, EBS.find_volume_type_optimizations
        [⟨"vol-b", 500, "gp2", "in-use", 10, "2026-01-01", ["i-1"], [], none⟩] =
          .ok [o] ∧ o.recommended_type = "gp3" ∧ o.severity = "medium" ∧
          o.monthly_savings = round2 (EBS.calculate_volume_cost 500 "gp2" -
            EBS.calculate_volume_cost 500 "gp3") ∧ o.size_gb = 500) ∧
      (∃ o, EBS.find_volume_type_optimizations
        [⟨"vol-c", 100, "io1", "in-use", 10, "2026-01-01", ["i-1"], [], some 3000⟩] =
          .ok [o] ∧ o.recommended_type = "gp3" ∧ o.severity = "high") ∧
      EBS.find_volume_type_optimizations
        [⟨"vol-d", 100, "io2", "in-use", 10, "2026-01-01", ["i-1"], [], some 20000⟩] =
          .ok [] :=
  ⟨c9_volume_type_optimizations.1
      ⟨"vol-b", 500, "gp2", "in-use", 10, "2026-01-01", ["i-1"], [], none⟩ rfl,
    c9_volume_type_optimizations.2.1
      ⟨"vol-c", 100, "io1", "in-use", 10, "2026-01-01", ["i-1"], [], some 3000⟩
      3000 (Or.inl rfl) rfl (by omega),
    c9_volume_type_optimizations.2.2.1
      ⟨"vol-d", 100, "io2", "in-use", 10, "2026-01-01", ["i-1"], [], some 20000⟩
      20000 (Or.inr rfl) rfl (by omega)⟩

/-- Helper: inversion of `EBS.scan` — a successful storage scan is
determined by a successful optimization pass, and every result field
is the corresponding computation. -/
theorem ebs_scan_inv (region scanDate : String) (vols : List EBS.RawVolume)
    (snaps : List EBS.RawSnapshot) (io : String → Option (ℕ × ℕ))
    (r : EBS.EbsResult)
    (h : EBS.scan region scanDate vols snaps io = .ok r) :
    ∃ opts, EBS.find_volume_type_optimizations vols = .ok opts ∧
      r.unattached = EBS.find_unattached_volumes vols ∧
      r.old_snapshots = EBS.find_old_snapshots 180 snaps ∧
      r.volume_optimizations = opts ∧
      r.monthly = round2
        (((EBS.find_unattached_volumes vols).map fun v => v.monthly_cost).sum
          + (opts.map fun o => o.monthly_savings).sum
          + ((EBS.find_old_snapshots 180 snaps).map fun s => s.monthly_cost).sum
            * 0.5) := by
  cases hopt : EBS.find_volume_type_optimizations vols with
  | error e =>
    rw [EBS.scan, hopt] at h
    exact absurd h (by simp [Except.bind])
  | ok opts =>
    rw [EBS.scan, hopt] at h
    simp only [Except.bind] at h
    cases h
    exact ⟨opts, rfl, rfl, rfl, rfl, rfl⟩

/-- **C10.** The storage scan's total potential monthly savings is the
sum of all unattached-volume monthly costs, plus all type-optimization
monthly savings, plus exactly 50 % of the total old-snapshot monthly
cost (rounded to 2 decimals, as every monetary value is); the 50 %
factor appears only in this rollup, while each individual snapshot
finding carries its full monthly cost `size_gb × snapshot rate`. -/
theorem c10_storage_rollup (region scanDate : String)
    (vols : List EBS.RawVolume) (snaps : List EBS.RawSnapshot)
    (io : String → Option (ℕ × ℕ)) (r : EBS.EbsResult)
    (h : EBS.scan region scanDate vols snaps io = .ok r) :
    r.monthly = round2 ((r.unattached.map fun v => v.monthly_cost).sum
      + (r.volume_optimizations.map fun o => o.monthly_savings).sum
      + (r.old_snapshots.map fun s => s.monthly_cost).sum * 0.5) ∧
      ∀ s ∈ r.old_snapshots,
        s.monthly_cost = round2 ((s.size_gb : ℚ) * EBS.snapshot_pricing) := by
  obtain ⟨opts, hopt, hu, ho, hv, hm⟩ :=
    ebs_scan_inv region scanDate vols snaps io r h
  constructor
  · rw [hm, hu, ho, hv]
  · intro s hs
    rw [ho] at hs
    unfold EBS.find_old_snapshots at hs
    rcases List.mem_filterMap.1 hs with ⟨s0, _, hsome⟩
    by_cases hage : s0.ageDays > 180
    · rw [if_pos hage] at hsome
      cases hsome
      rfl
    · rw [if_neg hage] at hsome
      exact absurd hsome (by simp)

/-- Witness for C10: a concrete storage scan (one 95-day unattached
gp3 volume, one 500 GB gp2 volume, one 200-day 40 GB snapshot),
with the scan-success hypothesis discharged by evaluation. -/
theorem c10_witness :
    ∃ r, EBS.scan "eu-west-2" "2026-02-03"
        [⟨"vol-a", 200, "gp3", "available", 95, "2025-07-09", [], [], none⟩,
         ⟨"vol-b", 500, "gp2", "in-use", 400, "2025-01-01", ["i-1"], [], none⟩]
        [⟨"snap-1", some "vol-b", 40, 200, "2025-07-01", some "weekly backup", []⟩]
        (fun _ => none) = .ok r ∧
      r.monthly = round2 ((r.unattached.map fun v => v.monthly_cost).sum
        + (r.volume_optimizations.map fun o => o.monthly_savings).sum
        + (r.old_snapshots.map fun s => s.monthly_cost).sum * 0.5) ∧
      ∀ s ∈ r.old_snapshots,
        s.monthly_cost = round2 ((s.size_gb : ℚ) * EBS.snapshot_pricing) := by
  cases hscan : EBS.scan "eu-west-2" "2026-02-03"
      [⟨"vol-a", 200, "gp3", "available", 95, "2025-07-09", [], [], none⟩,
       ⟨"vol-b", 500, "gp2", "in-use", 400, "2025-01-01", ["i-1"], [], none⟩]
      [⟨"snap-1", some "vol-b", 40, 200, "2025-07-01", some "weekly backup", []⟩]
      (fun _ => none) with
  | error e =>
    have hok : (EBS.scan "eu-west-2" "2026-02-03"
        [⟨"vol-a", 200, "gp3", "available", 95, "2025-07-09", [], [], none⟩,
         ⟨"vol-b", 500, "gp2", "in-use", 400, "2025-01-01", ["i-1"], [], none⟩]
        [⟨"snap-1", some "vol-b", 40, 200, "2025-07-01", some "weekly backup", []⟩]
        (fun _ => none)).isOk = true := by decide
    rw [hscan] at hok
    exact absurd hok (by simp [Except.isOk, Except.toBool])
  | ok r =>
    obtain ⟨h1, h2⟩ := c10_storage_rollup "eu-west-2" "2026-02-03" _ _ _ r hscan
    exact ⟨r, rfl, h1, h2⟩

/-- Helper: the descending insertion step is a permutation. -/
theorem insertByDesc_perm (x : EC2.Finding) (l : List EC2.Finding) :
    (EC2.insertByDesc x l).Perm (x :: l) := by
  induction l with
  | nil => exact List.Perm.refl _
  | cons y ys ih =>
    unfold EC2.insertByDesc
    split_ifs with h
    · exact (ih.cons y).trans (List.Perm.swap x y ys)
    · exact List.Perm.refl _

/-- Helper: the report's severity-sorted recommendation list is a
permutation of the classification output. -/
theorem sortBySavingsDesc_perm (l : List EC2.Finding) :
    (EC2.sortBySavingsDesc l).Perm l := by
  induction l with
  | nil => exact List.Perm.refl _
  | cons x xs ih =>
    exact (insertByDesc_perm x (EC2.sortBySavingsDesc xs)).trans (ih.cons x)

/-- Helper: inversion of a non-empty `EC2.scan`: the recommendation
list of the report is the sorted classification output and the
monthly total sums the severities critical/high/medium over it. -/
theorem ec2_scan_full_inv (region scanDate : String)
    (raw : List EC2.RawInst) (metrics : String → EC2.CwResp)
    (x : EC2.Ec2Full)
    (h : EC2.scan region scanDate raw metrics = .ok (.full x)) :
    ∃ recs, EC2.classifyAll region metrics (EC2.get_all_instances raw) = .ok recs ∧
      x.recommendations = EC2.sortBySavingsDesc recs ∧
      x.monthly = round2 (((recs.filter fun r =>
        ["critical", "high", "medium"].contains r.recommendation.severity).map
          fun r => r.recommendation.primary_savings).sum) := by
  unfold EC2.scan at h
  by_cases hins : (EC2.get_all_instances raw).isEmpty
  · rw [if_pos hins] at h
    exact absurd h (by simp [pure, Except.pure])
  · rw [if_neg hins] at h
    cases hcl : EC2.classifyAll region metrics (EC2.get_all_instances raw) with
    | error e =>
      rw [hcl] at h
      exact absurd h (by simp [Except.bind])
    | ok recs =>
      rw [hcl] at h
      simp only [Except.bind] at h
      cases h
      exact ⟨recs, rfl, rfl, rfl⟩

/-- **C1 counterexample.** A single running `t3.large` at 15 % average
CPU (severity `low`, schedule savings 48.47) and an empty storage
inventory: the report's `executive_summary.total_monthly_savings` is 0,
while the sum of primary-scenario savings over the report's actionable
(non-`info`) findings is 48.47 — low-severity findings are excluded
from the executive total. -/
theorem c1_counterexample_low_excluded :
    (Master.masterScan "eu-west-2" "2026-02-03T04:05:06" 2
        [⟨"i-1", "t3.large", "running", []⟩] (fun _ => .ok [(15, 18)])
        [] [] (fun _ => none)).map
        (fun r => (r.executive_summary.total_monthly_savings,
          specActionableSavingsSum (Master.reportJson r))) =
      .ok (0, 48.47) ∧ (0 : ℚ) ≠ 48.47 := by
  exact ⟨by decide, by decide⟩

/-- **C1 (amended).** The executive total is `round2` of the EC2 total
plus the EBS total, where the EC2 total sums primary savings over the
report's findings of severity `critical`, `high` or `medium` only
(`low` findings are excluded, `info` ones as well), and the EBS total
is the storage rollup of C10 (not a per-finding sum).  The demo report
does satisfy the claim's sum-over-actionable-findings reading — its
hard-coded 357.50 equals that sum — because it happens to contain no
`low` finding. -/
theorem c1_amended_exec_total :
    (∀ (region scanDate : String) (raw : List EC2.RawInst)
        (metrics : String → EC2.CwResp) (x : EC2.Ec2Full),
        EC2.scan region scanDate raw metrics = .ok (.full x) →
        x.monthly = round2 (((x.recommendations.filter fun r =>
          ["critical", "high", "medium"].contains r.recommendation.severity).map
            fun r => r.recommendation.primary_savings).sum)) ∧
      (∀ (region scanDate : String) (duration : ℕ)
          (rawInsts : List EC2.RawInst) (cw : String → EC2.CwResp)
          (vols : List EBS.RawVolume) (snaps : List EBS.RawSnapshot)
          (io : String → Option (ℕ × ℕ)) (r : Master.Report),
        Master.masterScan region scanDate duration rawInsts cw vols snaps io
            = .ok r →
        r.executive_summary.total_monthly_savings =
          round2 (Master.ec2MonthlyOf r.ec2_findings + r.ebs_findings.monthly)) ∧
      ((Master.demoReport "2026-02-03T04:05:06").numAt
          ["executive_summary", "total_monthly_savings"]
            = some (specActionableSavingsSum
                (Master.demoReport "2026-02-03T04:05:06")) ∧
        specActionableSavingsSum (Master.demoReport "2026-02-03T04:05:06")
          = 357.5) := by
  refine ⟨?_, ?_, ?_⟩
  · intro region scanDate raw metrics x h
    obtain ⟨recs, hcl, hrec, hm⟩ :=
      ec2_scan_full_inv region scanDate raw metrics x h
    rw [hm, hrec]
    have hperm := ((sortBySavingsDesc_perm recs).filter fun r =>
      ["critical", "high", "medium"].contains r.recommendation.severity).map
        fun r => r.recommendation.primary_savings
    rw [hperm.sum_eq]
  · intro region scanDate duration rawInsts cw vols snaps io r h
    unfold Master.masterScan at h
    cases he : EC2.scan region scanDate rawInsts cw with
    | error e =>
      rw [he] at h
      exact absurd h (by simp [Bind.bind, Except.bind, Functor.map, Except.map])
    | ok e =>
      rw [he] at h
      cases hb : EBS.scan region scanDate vols snaps io with
      | error e2 =>
        rw [hb] at h
        exact absurd h (by simp [Bind.bind, Except.bind, Functor.map, Except.map])
      | ok b =>
        rw [hb] at h
        simp only [Bind.bind, Except.bind, Functor.map, Except.map] at h
        cases h
        rfl
  · exact ⟨by decide, by decide⟩

/-- Witness for C1 (amended): both scan-success hypotheses discharged
on a concrete scan with one critical instance and one unattached
volume. -/
theorem c1_amended_witness :
    ∃ r, Master.masterScan "eu-west-2" "2026-02-03T04:05:06" 2
        [⟨"i-1", "t3.large", "running", []⟩] (fun _ => .ok [(1.5, 4)])
        [⟨"vol-a", 200, "gp3", "available", 95, "2025-07-09", [], [], none⟩]
        [] (fun _ => none) = .ok r ∧
      r.executive_summary.total_monthly_savings =
        round2 (Master.ec2MonthlyOf r.ec2_findings + r.ebs_findings.monthly) ∧
      ∀ x, r.ec2_findings = .full x →
        x.monthly = round2 (((x.recommendations.filter fun rc =>
          ["critical", "high", "medium"].contains rc.recommendation.severity).map
            fun rc => rc.recommendation.primary_savings).sum) := by
  cases hscan : Master.masterScan "eu-west-2" "2026-02-03T04:05:06" 2
      [⟨"i-1", "t3.large", "running", []⟩] (fun _ => .ok [(1.5, 4)])
      [⟨"vol-a", 200, "gp3", "available", 95, "2025-07-09", [], [], none⟩]
      [] (fun _ => none) with
  | error e =>
    have hok : (Master.masterScan "eu-west-2" "2026-02-03T04:05:06" 2
        [⟨"i-1", "t3.large", "running", []⟩] (fun _ => .ok [(1.5, 4)])
        [⟨"vol-a", 200, "gp3", "available", 95, "2025-07-09", [], [], none⟩]
        [] (fun _ => none)).isOk = true := by decide
    rw [hscan] at hok
    exact absurd hok (by simp [Except.isOk, Except.toBool])
  | ok r =>
    refine ⟨r, rfl, c1_amended_exec_total.2.1 _ _ _ _ _ _ _ _ r hscan, ?_⟩
    intro x hx
    have he : EC2.scan "eu-west-2" "2026-02-03T04:05:06"
        [⟨"i-1", "t3.large", "running", []⟩] (fun _ => .ok [(1.5, 4)])
          = .ok r.ec2_findings := by
      unfold Master.masterScan at hscan
      cases he2 : EC2.scan "eu-west-2" "2026-02-03T04:05:06"
          [⟨"i-1", "t3.large", "running", []⟩] (fun _ => .ok [(1.5, 4)]) with
      | error e2 =>
        rw [he2] at hscan
        exact absurd hscan (by simp [Bind.bind, Except.bind, Functor.map, Except.map])
      | ok e2 =>
        rw [he2] at hscan
        cases hb : EBS.scan "eu-west-2" "2026-02-03T04:05:06"
            [⟨"vol-a", 200, "gp3", "available", 95, "2025-07-09", [], [], none⟩]
            [] (fun _ => none) with
        | error e3 =>
          rw [hb] at hscan
          exact absurd hscan (by simp [Bind.bind, Except.bind, Functor.map, Except.map])
        | ok b =>
          rw [hb] at hscan
          simp only [Bind.bind, Except.bind, Functor.map, Except.map] at hscan
          cases hscan
          rfl
    rw [hx] at he
    exact c1_amended_exec_total.1 _ _ _ _ x he

/-- **C6 counterexample.** The demo report and a live report do not
have the same keys at every nesting level: for a live scan of one
running instance, `ec2_findings` carries the keys `status, scan_date,
region, instances_scanned, recommendations, summary,
potential_savings`, while the demo report's `ec2_findings` carries
only `instances_scanned, recommendations, summary`. -/
theorem c6_counterexample_nested_keys_differ :
    (Master.masterScan "eu-west-2" "2026-02-03T04:05:06" 2
        [⟨"i-1", "t3.large", "running", []⟩] (fun _ => .ok [(15, 18)])
        [] [] (fun _ => none)).map
        (fun r => (Master.reportJson r).keysAt ["ec2_findings"]) =
      .ok (some ["status", "scan_date", "region", "instances_scanned",
        "recommendations", "summary", "potential_savings"]) ∧
      (Master.demoReport "2026-02-03T04:05:06").keysAt ["ec2_findings"] =
        some ["instances_scanned", "recommendations", "summary"] ∧
      (some ["status", "scan_date", "region", "instances_scanned",
          "recommendations", "summary", "potential_savings"] :
        Option (List String)) ≠
        some ["instances_scanned", "recommendations", "summary"] := by
  exact ⟨by decide, by decide, by decide⟩

/-- **C6 (amended).** Demo and live reports agree on the top-level
keys (`scan_metadata`, `ec2_findings`, `ebs_findings`,
`executive_summary`) and on the key sets of `scan_metadata` and
`executive_summary`, but their `ec2_findings` and `ebs_findings`
sub-dictionaries differ in keys (the demo omits `status`, `scan_date`,
`region`, `potential_savings`, the EBS `old_snapshots` /
`low_activity_volumes` streams, the per-stream `count` / total keys
and `snapshot_analysis`), for every live report and every demo
timestamp. -/
theorem c6_amended_top_level_keys_match (r : Master.Report) (d : String) :
    (Master.reportJson r).keysAt [] = (Master.demoReport d).keysAt [] ∧
      (Master.reportJson r).keysAt ["scan_metadata"] =
        (Master.demoReport d).keysAt ["scan_metadata"] ∧
      (Master.reportJson r).keysAt ["executive_summary"] =
        (Master.demoReport d).keysAt ["executive_summary"] ∧
      (Master.reportJson r).keysAt ["ec2_findings"] ≠
        (Master.demoReport d).keysAt ["ec2_findings"] ∧
      (Master.reportJson r).keysAt ["ebs_findings"] ≠
        (Master.demoReport d).keysAt ["ebs_findings"] := by
  obtain ⟨sd, rg, dur, ec2f, ebsf, ex⟩ := r
  have hd2 : (Master.demoReport d).keysAt ["ec2_findings"] =
      some ["instances_scanned", "recommendations", "summary"] := rfl
  have hd3 : (Master.demoReport d).keysAt ["ebs_findings"] =
      some ["findings", "summary"] := rfl
  refine ⟨rfl, rfl, rfl, ?_, ?_⟩
  · cases ec2f with
    | empty =>
      have hl : (Master.reportJson ⟨sd, rg, dur, .empty, ebsf, ex⟩).keysAt
          ["ec2_findings"] = some ["status", "instances_scanned",
            "recommendations", "total_potential_savings"] := rfl
      rw [hl, hd2]
      decide
    | full f =>
      have hl : (Master.reportJson ⟨sd, rg, dur, .full f, ebsf, ex⟩).keysAt
          ["ec2_findings"] = some ["status", "scan_date", "region",
            "instances_scanned", "recommendations", "summary",
            "potential_savings"] := rfl
      rw [hl, hd2]
      decide
  · have hl : (Master.reportJson ⟨sd, rg, dur, ec2f, ebsf, ex⟩).keysAt
        ["ebs_findings"] = some ["status", "scan_date", "region", "findings",
          "snapshot_analysis", "summary", "potential_savings"] := rfl
    rw [hl, hd3]
    decide

/-- Witness for C4 (amended): two repeated marks of the same
implemented finding leave its single-row bound intact. -/
theorem c4_amended_witness :
    Api.realizedCount
        (Api.runMarkCalls
          [⟨"ec2", 1, ⟨"stopped_instance", "n", "admin"⟩, "t1"⟩,
           ⟨"ec2", 1, ⟨"stopped_instance", "n", "admin"⟩, "t2"⟩]
          ⟨[⟨1, 42.5, true, some "2026-01-01", some "n"⟩], [], []⟩)
        "ec2" 1 ≤ 1 :=
  c4_amended_at_most_one_realized_row.2.2
    [⟨"ec2", 1, ⟨"stopped_instance", "n", "admin"⟩, "t1"⟩,
     ⟨"ec2", 1, ⟨"stopped_instance", "n", "admin"⟩, "t2"⟩]
    ⟨[⟨1, 42.5, true, some "2026-01-01", some "n"⟩], [], []⟩
    "ec2" 1 (by decide)

end CostOptimiser
